import Mathlib

/-!
Shallow embedding of the patent/person aggregation core of the repository.

Rows of the four SQL tables become structures, the store becomes a record of
row lists, and each SQLAlchemy statement in `app/crud/patent.py` and
`app/crud/person.py` becomes an explicit list computation: inner joins are
`flatMap`/`filter` products, `GROUP BY` a full key is row deduplication,
`ORDER BY` a boolean key is a stable partition, `OFFSET`/`LIMIT` are
`drop`/`take`, and the fallible parts of the Python code (division that can
raise `ZeroDivisionError`, attribute access on a missing joined row) return
`Option`, with `none` modelling the raised exception.
-/

namespace AppBack

/-- A row of the `patent` table, with the columns read by the modelled
queries (`app/models/patent.py` is not part of the sources; the column names
are the ones the queries in `app/crud/patent.py` reference). -/
structure Patent where
  kind : Int
  reg_number : Int
  country_code : String
  author_count : Nat
  actual : Bool
deriving DecidableEq, Repr

/-- A row of the `person` table (`app/models/person.py`), restricted to the
columns the modelled queries read. `region` and `support_type` are nullable. -/
structure Person where
  kind : Int
  tax_number : String
  full_name : String
  category : String
  region : Option String
  uk : Int
  support_type : Option String
deriving DecidableEq, Repr

/-- A row of the `ownership` join table: one Person owns one Patent,
referenced by the patent's composite key. -/
structure Ownership where
  patent_kind : Int
  patent_reg_number : Int
  person_tax_number : String
deriving DecidableEq, Repr

/-- A row of the `filter_tax_number` table: one tax number belonging to one
uploaded filter. -/
structure FilterTaxNumber where
  filter_id : Int
  tax_number : String
deriving DecidableEq, Repr

/-- The database state: the four tables as row lists (list order models the
physical row order the database enumerates when no ORDER BY applies). -/
structure Store where
  patents : List Patent
  persons : List Person
  ownerships : List Ownership
  filter_tax_numbers : List FilterTaxNumber
deriving DecidableEq, Repr

/-- The ON condition used by every Patent–Ownership join in `crud/patent.py`:
`Ownership.patent_kind == Patent.kind AND Ownership.patent_reg_number ==
Patent.reg_number`. -/
def ownsPatent (o : Ownership) (p : Patent) : Bool :=
  o.patent_kind == p.kind && o.patent_reg_number == p.reg_number

/-- Grouped counting (`GROUP BY key` + `count()`): one entry per distinct key,
paired with the number of rows carrying that key. -/
def countBy {α β : Type} [DecidableEq β] (key : α → β) (l : List α) : List (β × Nat) :=
  ((l.map key).dedup).map (fun b => (b, (l.filter (fun a => key a == b)).length))

/-! ### Top-N folding (`get_top_5_and_others`, `app/crud/person.py` lines 32–53)

The pure part of the helper: its input is the already-ordered list of
`(label, count)` rows produced by the SQL query. -/

/-- The label the source gives the synthetic remainder entry. -/
def othersLabel : String := "Остальные"

/-- `get_top_5_and_others` (`app/crud/person.py` 32–53), applied to the list
of rows the query returned: empty input short-circuits to `[]`; otherwise the
first five rows are kept verbatim and a remainder entry holding the sum of
the rest is appended when that sum is strictly positive. -/
def getTop5AndOthers (all_data : List (String × Int)) : List (String × Int) :=
  if all_data.isEmpty then []
  else
    let top_5 := all_data.take 5
    let others_sum := ((all_data.drop 5).map Prod.snd).sum
    let result_list := top_5
    if 0 < others_sum then result_list ++ [(othersLabel, others_sum)]
    else result_list

/-! ### Python arithmetic helpers -/

/-- Python's `int(round(a / b))` for natural `a`, `b` with `b ≠ 0`: rounding
to the nearest integer with ties going to the even neighbour. -/
def roundHalfEvenDiv (a b : Nat) : Nat :=
  let q := a / b
  let r := a % b
  if 2 * r < b then q
  else if b < 2 * r then q + 1
  else if q % 2 == 0 then q else q + 1

/-- `int(round(100 * a / b))` as the source computes a percentage: Python
raises `ZeroDivisionError` when `b = 0`, modelled as `none`. -/
def pyPercent (a b : Nat) : Option Nat :=
  if b == 0 then none else some (roundHalfEvenDiv (100 * a) b)

/-- `round((a / b) * 100, 2)` as the Moscow statistics compute a percentage
with two decimal places (the caller has ruled out `b = 0`). -/
def round2Percent (a b : Nat) : ℚ :=
  (roundHalfEvenDiv (10000 * a) b : ℚ) / 100

/-! ### Patent statistics (`CRUDPatent.get_stats`, `app/crud/patent.py` 146–293) -/

/-- The `(Ownership, FilterTaxNumber)` join links of one patent into filter
`fid`: `JOIN ownership ON (composite key) JOIN filter_tax_number ON
ownership.person_tax_number == filter_tax_number.tax_number WHERE
filter_tax_number.filter_id == fid`, restricted to the given patent. -/
def filterLinks (s : Store) (fid : Int) (p : Patent) : List (Ownership × FilterTaxNumber) :=
  (s.ownerships.filter (fun o => ownsPatent o p)).flatMap (fun o =>
    (s.filter_tax_numbers.filter
      (fun f => f.tax_number == o.person_tax_number && f.filter_id == fid)).map
      (fun f => (o, f)))

/-- The row set of the filtered count statements in `get_stats`:
`Patent JOIN Ownership JOIN FilterTaxNumber … WHERE filter_id == fid`, with
an optional extra predicate on the patent (`country_code == "RU"`).
Each row is a (patent, ownership, filter-row) triple. -/
def statFilteredRows (s : Store) (fid : Int) (pred : Patent → Bool) :
    List (Patent × Ownership × FilterTaxNumber) :=
  (s.patents.filter pred).flatMap (fun p =>
    (filterLinks s fid p).map (fun of => (p, of.1, of.2)))

/-- `Patent.country_code == "RU"` (`filter_by(country_code="RU")`). -/
def ruPatent (p : Patent) : Bool := p.country_code == "RU"

/-- `total_patents` of `get_stats` (`app/crud/patent.py` 171–185): the plain
table count, or with a filter the count of join rows. -/
def totalPatentsStat (s : Store) (filter_id : Option Int) : Nat :=
  match filter_id with
  | none => s.patents.length
  | some fid => (statFilteredRows s fid (fun _ => true)).length

/-- `total_ru_patents` of `get_stats` (lines 187–201). -/
def totalRuPatentsStat (s : Store) (filter_id : Option Int) : Nat :=
  match filter_id with
  | none => (s.patents.filter ruPatent).length
  | some fid => (statFilteredRows s fid ruPatent).length

/-- The distinct `(kind, reg_number)` keys counted by the two
`count(distinct(Patent.kind, Patent.reg_number))` statements of `get_stats`
(`Patent JOIN Ownership`, optionally narrowed by the filter join). -/
def withHoldersKeys (s : Store) (filter_id : Option Int) (pred : Patent → Bool) :
    List (Int × Int) :=
  match filter_id with
  | none =>
      ((s.patents.filter pred).flatMap (fun p =>
        (s.ownerships.filter (fun o => ownsPatent o p)).map
          (fun _ => (p.kind, p.reg_number)))).dedup
  | some fid =>
      ((statFilteredRows s fid pred).map (fun t => (t.1.kind, t.1.reg_number))).dedup

/-- `total_with_holders` of `get_stats` (lines 203–218). -/
def totalWithHoldersStat (s : Store) (filter_id : Option Int) : Nat :=
  (withHoldersKeys s filter_id (fun _ => true)).length

/-- `total_ru_with_holders` of `get_stats` (lines 220–236). -/
def totalRuWithHoldersStat (s : Store) (filter_id : Option Int) : Nat :=
  (withHoldersKeys s filter_id ruPatent).length

/-- The CASE expression labelling a patent by its author count
(`app/crud/patent.py` 245–250): `0`, `1`, `2–5` (5 inclusive), else `5+`. -/
def authorCountGroup (n : Nat) : String :=
  if n == 0 then "0"
  else if n == 1 then "1"
  else if n ≤ 5 then "2–5"
  else "5+"

/-- `by_author_count` of `get_stats` (lines 243–270): grouped count of the
CASE label, over patents or over the filtered join rows. -/
def byAuthorCountStat (s : Store) (filter_id : Option Int) : List (String × Nat) :=
  match filter_id with
  | none => countBy (fun p => authorCountGroup p.author_count) s.patents
  | some fid =>
      countBy (fun t => authorCountGroup t.1.author_count)
        (statFilteredRows s fid (fun _ => true))

/-- `by_patent_kind` of `get_stats` (lines 272–291). -/
def byPatentKindStat (s : Store) (filter_id : Option Int) : List (Int × Nat) :=
  match filter_id with
  | none => countBy (fun p => p.kind) s.patents
  | some fid => countBy (fun t => t.1.kind) (statFilteredRows s fid (fun _ => true))

/-- The record `get_stats` assembles. -/
structure PatentStatsResponse where
  total_patents : Nat
  total_ru_patents : Nat
  total_with_holders : Nat
  total_ru_with_holders : Nat
  with_holders_percent : Nat
  ru_with_holders_percent : Nat
  by_author_count : List (String × Nat)
  by_patent_kind : List (Int × Nat)
deriving DecidableEq, Repr

/-- `CRUDPatent.get_stats` (`app/crud/patent.py` 146–293). The two percentage
computations at lines 238–241 divide without a zero guard, so a store/filter
selecting zero patents (or zero RU patents) makes the call fail
(`ZeroDivisionError`), modelled by `none`. -/
def getStats (s : Store) (filter_id : Option Int) : Option PatentStatsResponse :=
  match pyPercent (totalWithHoldersStat s filter_id) (totalPatentsStat s filter_id),
        pyPercent (totalRuWithHoldersStat s filter_id) (totalRuPatentsStat s filter_id) with
  | none, _ => none
  | _, none => none
  | some p1, some p2 =>
    some
    { total_patents := totalPatentsStat s filter_id
      total_ru_patents := totalRuPatentsStat s filter_id
      total_with_holders := totalWithHoldersStat s filter_id
      total_ru_with_holders := totalRuWithHoldersStat s filter_id
      with_holders_percent := p1
      ru_with_holders_percent := p2
      by_author_count := byAuthorCountStat s filter_id
      by_patent_kind := byPatentKindStat s filter_id }

/-! ### Moscow person statistics (`CRUDPerson.get_msk_stats`, `app/crud/person.py` 163–282) -/

/-- Lowercasing of one character covering the Cyrillic range the `ilike`
pattern needs, on top of ASCII lowercasing. -/
def lowerRu (c : Char) : Char :=
  if 'А' ≤ c ∧ c ≤ 'Я' then Char.ofNat (c.toNat + 32) else c.toLower

/-- `hay` starts with `pat` (character lists). -/
def charsStartWith : List Char → List Char → Bool
  | _, [] => true
  | [], _ :: _ => false
  | c :: cs, d :: ds => c == d && charsStartWith cs ds

/-- `pat` occurs somewhere inside `hay` (character lists). -/
def charsContain : List Char → List Char → Bool
  | [], pat => pat.isEmpty
  | c :: cs, pat => charsStartWith (c :: cs) pat || charsContain cs pat

/-- `Person.region.ilike('%москва%')`: case-insensitive substring match; a
NULL region matches nothing. -/
def regionIlikeMoskva (region : Option String) : Bool :=
  match region with
  | none => false
  | some r => charsContain (r.data.map lowerRu) ("москва".data)

/-- The Moscow subset of the person table. -/
def mskPersons (s : Store) : List Person :=
  s.persons.filter (fun q => regionIlikeMoskva q.region)

/-- The row set of the Moscow statements: with a filter id the statement
joins `FilterTaxNumber` on the person's tax number, so a person appears once
per matching filter row. -/
def mskRows (s : Store) (filter_id : Option Int) : List Person :=
  match filter_id with
  | none => mskPersons s
  | some fid =>
      (mskPersons s).flatMap (fun q =>
        (s.filter_tax_numbers.filter
          (fun fr => fr.tax_number == q.tax_number && fr.filter_id == fid)).map
          (fun _ => q))

/-- The record `get_msk_stats` assembles. -/
structure MskStatsResponse where
  total_persons : Nat
  by_kind : List (Int × Nat)
  by_category : List (String × Nat)
  moscow_cluster_percentage : ℚ
  moscow_support_type_percentage : ℚ
deriving DecidableEq, Repr

/-- `CRUDPerson.get_msk_stats` (`app/crud/person.py` 163–282). The cluster
percentage is guarded (`if cluster_count and total_count > 0 … else 0`,
lines 257–261), but the support-type percentage at line 279 divides by the
Moscow person count without a guard — and its statement ignores the filter id
entirely — so an empty Moscow subset makes the call fail
(`ZeroDivisionError`), modelled by `none`. -/
def getMskStats (s : Store) (filter_id : Option Int) : Option MskStatsResponse :=
  let rows := mskRows s filter_id
  let total_persons := rows.length
  let by_kind := countBy (fun q => q.kind) rows
  let by_category := countBy (fun q => q.category) rows
  let cluster_count := (rows.filter (fun q => q.uk == 1)).length
  let cluster_total := rows.length
  let moscow_cluster_percentage : ℚ :=
    if cluster_count ≠ 0 ∧ 0 < cluster_total then round2Percent cluster_count cluster_total
    else 0
  let srows := mskPersons s
  let scount := (srows.filter (fun q => q.support_type.isSome)).length
  let stotal := srows.length
  if stotal == 0 then none
  else some
    { total_persons := total_persons
      by_kind := by_kind
      by_category := by_category
      moscow_cluster_percentage := moscow_cluster_percentage
      moscow_support_type_percentage := round2Percent scount stotal }

/-! ### Patent listings (`CRUDPatent.get_patents_list` 26–90 and
`CRUDPatent.get_patents_list_with_filter` 295–364) -/

/-- One `{tax_number, full_name}` holder entry of a listed patent. -/
structure PatentHolder where
  tax_number : String
  full_name : String
deriving DecidableEq, Repr

/-- One element of the `items` list: the patent row together with its
`patent_holders`. -/
structure PatentItem where
  patent : Patent
  patent_holders : List PatentHolder
deriving DecidableEq, Repr

/-- The `{total, items}` record both listing operations return. -/
structure PatentListResponse where
  total : Nat
  items : List PatentItem
deriving DecidableEq, Repr

/-- The holder entries built from a list of ownership rows
(`ownership.person.tax_number` / `.full_name`): looking up a person that does
not exist makes the Python attribute access raise, modelled by `none`. -/
def holdersOf (s : Store) : List Ownership → Option (List PatentHolder)
  | [] => some []
  | o :: os =>
    match s.persons.find? (fun q => q.tax_number == o.person_tax_number) with
    | none => none
    | some q =>
      match holdersOf s os with
      | none => none
      | some rest => some ({ tax_number := q.tax_number, full_name := q.full_name } :: rest)

/-- The `patent_holders` of one listed patent: its loaded `ownerships`
relation, each resolved to a person. -/
def patentHolders (s : Store) (p : Patent) : Option (List PatentHolder) :=
  holdersOf s (s.ownerships.filter (fun o => ownsPatent o p))

/-- The result-assembly loop shared by both listing functions: one item per
returned patent row, in order. -/
def buildItems (s : Store) : List Patent → Option (List PatentItem)
  | [] => some []
  | p :: ps =>
    match patentHolders s p with
    | none => none
    | some hs =>
      match buildItems s ps with
      | none => none
      | some rest => some ({ patent := p, patent_holders := hs } :: rest)

/-- `ORDER BY Patent.actual DESC` as a stable sort on the boolean key: rows
with `actual = true` first, rows with `actual = false` after, each group in
store order. -/
def orderByActualDesc (l : List Patent) : List Patent :=
  l.filter (fun p => p.actual) ++ l.filter (fun p => !p.actual)

/-- The WHERE predicate of `get_patents_list` built from the optional `kind`
and `actual` arguments. -/
def kindActualPred (kind : Option Int) (actual : Option Bool) (p : Patent) : Bool :=
  (match kind with
   | none => true
   | some k => p.kind == k) &&
  (match actual with
   | none => true
   | some a => p.actual == a)

/-- `CRUDPatent.get_patents_list` (`app/crud/patent.py` 26–90): one output
row per patent passing the kind/actual predicates (the outer joins plus
`GROUP BY` the composite key keep one row per patent), ordered by
`actual DESC`, paginated by `OFFSET (page-1)*pagesize LIMIT pagesize` —
while `total` (lines 84–85) is the unconditioned `SELECT count(*) FROM
patent`. -/
def pageWindow (s : Store) (page pagesize : Nat) (kind : Option Int)
    (actual : Option Bool) : List Patent :=
  ((orderByActualDesc (s.patents.filter (kindActualPred kind actual))).drop
    ((page - 1) * pagesize)).take pagesize

/-- `CRUDPatent.get_patents_list`, continued: the returned record. -/
def getPatentsList (s : Store) (page pagesize : Nat) (kind : Option Int)
    (actual : Option Bool) : Option PatentListResponse :=
  match buildItems s (pageWindow s page pagesize kind actual) with
  | none => none
  | some items => some { total := s.patents.length, items := items }

/-- The tax numbers of one filter (`SELECT tax_number FROM filter_tax_number
WHERE filter_id == fid`, `app/crud/patent.py` 320–322). -/
def filterTaxNums (s : Store) (fid : Int) : List String :=
  (s.filter_tax_numbers.filter (fun f => f.filter_id == fid)).map (fun f => f.tax_number)

/-- The WHERE predicate the filtered listing leaves on a patent after its
outer joins plus `Person.tax_number IN (tax_numbers)` plus `GROUP BY` the
composite key: the patent has some ownership row resolving to an existing
person whose tax number lies in the filter set. -/
def ownerInFilter (s : Store) (fid : Int) (p : Patent) : Bool :=
  s.ownerships.any (fun o => ownsPatent o p &&
    s.persons.any (fun q =>
      q.tax_number == o.person_tax_number && (filterTaxNums s fid).contains q.tax_number))

/-- The row set of the filtered listing's `total` statement
(`app/crud/patent.py` 355–359): `Patent OUTER JOIN Ownership WHERE
ownership.person_tax_number IN tax_numbers` — one row per (patent, matching
ownership) pair, the outer-joined null rows failing the IN test. -/
def filteredTotalRows (s : Store) (fid : Int) : List (Patent × Ownership) :=
  s.patents.flatMap (fun p =>
    (s.ownerships.filter
      (fun o => ownsPatent o p && (filterTaxNums s fid).contains o.person_tax_number)).map
      (fun o => (p, o)))

/-- `CRUDPatent.get_patents_list_with_filter` (`app/crud/patent.py`
295–364): items are the patents owning into the filter set (no ORDER BY),
paginated; `total` counts the (patent, ownership) join rows. -/
def filteredPageWindow (s : Store) (page pagesize : Nat) (filter_id : Int) : List Patent :=
  ((s.patents.filter (fun p => ownerInFilter s filter_id p)).drop
    ((page - 1) * pagesize)).take pagesize

/-- `CRUDPatent.get_patents_list_with_filter`, continued: the returned record. -/
def getPatentsListWithFilter (s : Store) (page pagesize : Nat) (filter_id : Int) :
    Option PatentListResponse :=
  match buildItems s (filteredPageWindow s page pagesize filter_id) with
  | none => none
  | some items => some { total := (filteredTotalRows s filter_id).length, items := items }

/-! ### Deletion and referential integrity -/

/-- Modelled from the spec: the delete operation itself (`CRUDBase.remove`)
is not among the sources; spec §3 plus the `cascade="all, delete-orphan"`
declaration on `Person.ownerships` (`app/models/person.py` line 46) say that
deleting a person removes the person row and every ownership row referencing
its tax number, atomically. -/
def deletePerson (s : Store) (tax : String) : Store :=
  { s with
    persons := s.persons.filter (fun q => q.tax_number != tax)
    ownerships := s.ownerships.filter (fun o => o.person_tax_number != tax) }

/-- Modelled from the spec: the `Patent` model and its delete path are not
among the sources; spec §3 says deleting a patent by its composite key must
cascade to its ownership links, so the patent row and every ownership row
referencing `(kind, reg_number)` are removed atomically. -/
def deletePatent (s : Store) (kind reg : Int) : Store :=
  { s with
    patents := s.patents.filter (fun p => !(p.kind == kind && p.reg_number == reg))
    ownerships :=
      s.ownerships.filter (fun o => !(o.patent_kind == kind && o.patent_reg_number == reg)) }

/-- Referential integrity of the store: every ownership row references an
existing person and an existing patent (spec §3 invariants). -/
def storeWF (s : Store) : Bool :=
  s.ownerships.all (fun o =>
    s.persons.any (fun q => q.tax_number == o.person_tax_number) &&
    s.patents.any (fun p => p.kind == o.patent_kind && p.reg_number == o.patent_reg_number))

/-! ### Concrete stores used as counterexamples and witnesses -/

/-- The empty database. -/
def emptyStore : Store :=
  { patents := [], persons := [], ownerships := [], filter_tax_numbers := [] }

/-- A Russian patent of kind 1, registration number 1, one author, in force. -/
def pat11 : Patent :=
  { kind := 1, reg_number := 1, country_code := "RU", author_count := 1, actual := true }

/-- A second in-force patent of kind 1, registration number 2. -/
def pat12 : Patent :=
  { kind := 1, reg_number := 2, country_code := "RU", author_count := 1, actual := true }

/-- A patent of kind 2. -/
def patK2 : Patent :=
  { kind := 2, reg_number := 3, country_code := "RU", author_count := 1, actual := true }

/-- Ownership of `pat11` by the person with tax number `A`. -/
def ownA : Ownership := { patent_kind := 1, patent_reg_number := 1, person_tax_number := "A" }

/-- Ownership of `pat11` by the person with tax number `B`. -/
def ownB : Ownership := { patent_kind := 1, patent_reg_number := 1, person_tax_number := "B" }

/-- The person with tax number `A`. -/
def perA : Person :=
  { kind := 1, tax_number := "A", full_name := "Alpha", category := "c",
    region := none, uk := 0, support_type := none }

/-- The person with tax number `B`. -/
def perB : Person :=
  { kind := 1, tax_number := "B", full_name := "Beta", category := "c",
    region := none, uk := 0, support_type := none }

/-- Filter 1 contains tax number `A`. -/
def ftnA : FilterTaxNumber := { filter_id := 1, tax_number := "A" }

/-- Filter 1 contains tax number `B`. -/
def ftnB : FilterTaxNumber := { filter_id := 1, tax_number := "B" }

/-- One patent owned by two persons, both of whose tax numbers belong to
filter 1. -/
def twoOwnerStore : Store :=
  { patents := [pat11], persons := [perA, perB], ownerships := [ownA, ownB],
    filter_tax_numbers := [ftnA, ftnB] }

/-- One patent owned by one person whose tax number belongs to filter 1. -/
def oneOwnerStore : Store :=
  { patents := [pat11], persons := [perA], ownerships := [ownA],
    filter_tax_numbers := [ftnA] }

/-- Two patents of different kinds, no ownerships. -/
def twoKindStore : Store :=
  { patents := [pat11, patK2], persons := [], ownerships := [], filter_tax_numbers := [] }

/-- Two in-force patents in registration-number order. -/
def pairStore : Store :=
  { patents := [pat11, pat12], persons := [], ownerships := [], filter_tax_numbers := [] }

/-- The same two in-force patents, stored in the opposite row order. -/
def pairStoreRev : Store :=
  { patents := [pat12, pat11], persons := [], ownerships := [], filter_tax_numbers := [] }

/-- The statistics record `get_stats` produces on `oneOwnerStore`, with or
without filter 1. -/
def oneOwnerStatsResp : PatentStatsResponse :=
  { total_patents := 1, total_ru_patents := 1, total_with_holders := 1,
    total_ru_with_holders := 1, with_holders_percent := 100,
    ru_with_holders_percent := 100, by_author_count := [("1", 1)],
    by_patent_kind := [(1, 1)] }

/-- The listing `get_patents_list` produces on `twoKindStore` with
`kind = 1`. -/
def twoKindListResp : PatentListResponse :=
  { total := 2, items := [{ patent := pat11, patent_holders := [] }] }

/-- The listing `get_patents_list` produces on `pairStore` with no filters. -/
def pairListResp : PatentListResponse :=
  { total := 2,
    items := [{ patent := pat11, patent_holders := [] },
              { patent := pat12, patent_holders := [] }] }

/-- The listing `get_patents_list_with_filter` produces on `oneOwnerStore`
with filter 1. -/
def oneOwnerFilterResp : PatentListResponse :=
  { total := 1,
    items := [{ patent := pat11,
                patent_holders := [{ tax_number := "A", full_name := "Alpha" }] }] }

/-! ## Helper lemmas -/

/-- The value `get_top_5_and_others` returns, as one equation: the first five
rows, plus the remainder entry exactly when the remaining counts sum to a
strictly positive value. -/
theorem getTop5AndOthers_eq (l : List (String × Int)) :
    getTop5AndOthers l =
      l.take 5 ++
        (if 0 < ((l.drop 5).map Prod.snd).sum
         then [(othersLabel, ((l.drop 5).map Prod.snd).sum)] else []) := by
  unfold getTop5AndOthers
  cases he : l.isEmpty with
  | true =>
      have hl : l = [] := List.isEmpty_iff.mp he
      subst hl
      simp
  | false =>
      simp only [Bool.false_eq_true, if_false]
      by_cases hs : 0 < ((l.drop 5).map Prod.snd).sum
      · rw [if_pos hs, if_pos hs]
      · rw [if_neg hs, if_neg hs, List.append_nil]

/-- The item-assembly loop succeeds only with one item per input patent, in
order: the items' patents are exactly the input list. -/
theorem buildItems_map_patent (s : Store) :
    ∀ (l : List Patent) (items : List PatentItem),
      buildItems s l = some items → items.map (fun it => it.patent) = l := by
  intro l
  induction l with
  | nil =>
      intro items h
      simp only [buildItems] at h
      cases h
      simp
  | cons p ps ih =>
      intro items h
      simp only [buildItems] at h
      cases hh : patentHolders s p with
      | none => rw [hh] at h; simp at h
      | some hs =>
          rw [hh] at h
          cases hr : buildItems s ps with
          | none => rw [hr] at h; simp at h
          | some rest =>
              rw [hr] at h
              cases h
              simp only [List.map_cons]
              rw [ih rest hr]

/-- Ordering by `actual DESC` yields a list in which an in-force patent never
follows a not-in-force one. -/
theorem orderByActualDesc_pairwise (l : List Patent) :
    List.Pairwise (fun a b : Patent => b.actual = true → a.actual = true)
      (orderByActualDesc l) := by
  unfold orderByActualDesc
  rw [List.pairwise_append]
  refine ⟨List.pairwise_of_forall_mem_list ?_, List.pairwise_of_forall_mem_list ?_, ?_⟩
  · intro a ha b _ _
    exact (List.mem_filter.mp ha).2
  · intro a _ b hb hba
    have h2 := (List.mem_filter.mp hb).2
    rw [hba] at h2
    simp at h2
  · intro a ha b _ _
    exact (List.mem_filter.mp ha).2

/-- Inversion of a successful `getStats` call: the `total_patents` field is
the value of the corresponding count statement. -/
theorem getStats_total_patents {s : Store} {f : Option Int} {r : PatentStatsResponse}
    (h : getStats s f = some r) : r.total_patents = totalPatentsStat s f := by
  unfold getStats at h
  cases h1 : pyPercent (totalWithHoldersStat s f) (totalPatentsStat s f) with
  | none => rw [h1] at h; simp at h
  | some p1 =>
      rw [h1] at h
      cases h2 : pyPercent (totalRuWithHoldersStat s f) (totalRuPatentsStat s f) with
      | none => rw [h2] at h; simp at h
      | some p2 =>
          rw [h2] at h
          cases h
          rfl

/-! ## Claim theorems -/

/-- C1: the claim says `patentStats` on a store/filter selecting zero
patents returns `with_holders_percent = 0` and `ru_with_holders_percent = 0`
instead of raising; the code divides by `total_patents` without a guard
(`app/crud/patent.py` 238–241), so on the empty store the call fails with
`ZeroDivisionError` (modelled by `none`) rather than returning zeros. -/
theorem getStats_empty_store_raises : getStats emptyStore none = none := by decide

/-- C2: `get_top_5_and_others` returns the first `min(n, 5)` input entries
verbatim, followed by one remainder entry carrying the sum of the remaining
counts exactly when `n > 5` and that sum is strictly positive; in particular
the empty input yields the empty output and the output length is
`min(n, 5) + (1 if n > 5 and tail sum > 0 else 0)`. -/
theorem getTop5AndOthers_shape (l : List (String × Int)) :
    getTop5AndOthers l =
      l.take 5 ++
        (if 5 < l.length ∧ 0 < ((l.drop 5).map Prod.snd).sum
         then [(othersLabel, ((l.drop 5).map Prod.snd).sum)] else []) ∧
    (getTop5AndOthers l).length =
      min l.length 5 +
        (if 5 < l.length ∧ 0 < ((l.drop 5).map Prod.snd).sum then 1 else 0) := by
  have hcond : (0 < ((l.drop 5).map Prod.snd).sum) ↔
      (5 < l.length ∧ 0 < ((l.drop 5).map Prod.snd).sum) := by
    constructor
    · intro hs
      refine ⟨?_, hs⟩
      by_contra hlen
      have hdrop : l.drop 5 = [] := List.drop_eq_nil_of_le (Nat.le_of_not_lt hlen)
      rw [hdrop] at hs
      simp at hs
    · exact fun hc => hc.2
  have h1 : getTop5AndOthers l =
      l.take 5 ++
        (if 5 < l.length ∧ 0 < ((l.drop 5).map Prod.snd).sum
         then [(othersLabel, ((l.drop 5).map Prod.snd).sum)] else []) := by
    rw [getTop5AndOthers_eq l]
    exact congrArg (l.take 5 ++ ·) (if_congr hcond rfl rfl)
  refine ⟨h1, ?_⟩
  rw [h1]
  by_cases hc : 5 < l.length ∧ 0 < ((l.drop 5).map Prod.snd).sum
  · rw [if_pos hc, if_pos hc]
    simp only [List.length_append, List.length_take, List.length_singleton]
    omega
  · rw [if_neg hc, if_neg hc]
    simp only [List.append_nil, List.length_take, Nat.add_zero]
    omega

/-- C5: the claim says `personMoscowStats` on an empty Moscow subset returns
`0` for both percentages; the code guards the cluster percentage
(`app/crud/person.py` 257–261) but divides the support-type percentage by the
Moscow person count without a guard (line 279), so a store with no Moscow
persons makes the call fail with `ZeroDivisionError` (modelled by `none`). -/
theorem getMskStats_empty_store_raises : getMskStats emptyStore none = none := by decide

/-- C6: the `by_author_count` CASE expression sends every author count to
exactly one of the four labels: `0` to `"0"`, `1` to `"1"`, `2` through `5`
inclusive to `"2–5"`, and everything above `5` to `"5+"`. -/
theorem authorCountGroup_buckets (n : Nat) :
    (n = 0 ∧ authorCountGroup n = "0") ∨
    (n = 1 ∧ authorCountGroup n = "1") ∨
    (2 ≤ n ∧ n ≤ 5 ∧ authorCountGroup n = "2–5") ∨
    (5 < n ∧ authorCountGroup n = "5+") := by
  unfold authorCountGroup
  by_cases h0 : n = 0
  · subst h0; left; exact ⟨rfl, rfl⟩
  · by_cases h1 : n = 1
    · subst h1; right; left; exact ⟨rfl, rfl⟩
    · by_cases h5 : n ≤ 5
      · right; right; left
        refine ⟨by omega, h5, ?_⟩
        have e0 : (n == 0) = false := by simp [h0]
        have e1 : (n == 1) = false := by simp [h1]
        rw [e0, e1]
        simp [h5]
      · right; right; right
        refine ⟨by omega, ?_⟩
        have e0 : (n == 0) = false := by simp [h0]
        have e1 : (n == 1) = false := by simp [h1]
        rw [e0, e1]
        simp [h5]

/-- C10: for inputs whose counts are all non-negative, the Top-N folding
preserves the total: the output counts (remainder included, when present) sum
to the input counts. -/
theorem getTop5AndOthers_sum (l : List (String × Int))
    (h : l.all (fun x => decide (0 ≤ x.2)) = true) :
    ((getTop5AndOthers l).map Prod.snd).sum = (l.map Prod.snd).sum := by
  have hsplit : (l.map Prod.snd).sum =
      ((l.take 5).map Prod.snd).sum + ((l.drop 5).map Prod.snd).sum := by
    conv_lhs => rw [← List.take_append_drop 5 l]
    rw [List.map_append, List.sum_append]
  rw [getTop5AndOthers_eq l]
  by_cases hs : 0 < ((l.drop 5).map Prod.snd).sum
  · rw [if_pos hs, List.map_append, List.sum_append, hsplit]
    simp
  · have hnonneg : 0 ≤ ((l.drop 5).map Prod.snd).sum := by
      apply List.sum_nonneg
      intro x hx
      rcases List.mem_map.mp hx with ⟨a, ha, rfl⟩
      have ha' : a ∈ l := List.mem_of_mem_drop ha
      have := List.all_eq_true.mp h a ha'
      exact of_decide_eq_true this
    have hz : ((l.drop 5).map Prod.snd).sum = 0 := le_antisymm (le_of_not_lt hs) hnonneg
    rw [if_neg hs, List.append_nil, hsplit, hz, add_zero]

/-- C3: the claim says `listPatents` returns at most `pageSize` items and a
`total` equal to the count of patents matching the supplied kind/actual
predicates; on a store with one patent of kind 1 and one of kind 2, listing
with `kind = 1` returns `total = 2` although exactly one patent matches — the
code's `total` is the unconditioned `SELECT count(*) FROM patent`
(`app/crud/patent.py` 84–85). -/
theorem getPatentsList_total_unfiltered_counterexample :
    (getPatentsList twoKindStore 1 10 (some 1) none).map PatentListResponse.total = some 2 ∧
    (twoKindStore.patents.filter (kindActualPred (some 1) none)).length = 1 := by decide

/-- C3 amended: for valid `page ≥ 1` and `pageSize ≥ 1`, a successful
`listPatents` call returns at most `pageSize` items, and its `total` is the
unconditioned count of all patents in the store — independent of `page`, but
also independent of the kind/actual predicates, so it is not the count of
matching patents. -/
theorem getPatentsList_bounds (s : Store) (page pagesize : Nat) (kind : Option Int)
    (actual : Option Bool) (r : PatentListResponse)
    (hpage : 1 ≤ page) (hps : 1 ≤ pagesize)
    (h : getPatentsList s page pagesize kind actual = some r) :
    r.items.length ≤ pagesize ∧ r.total = s.patents.length := by
  unfold getPatentsList at h
  cases hb : buildItems s (pageWindow s page pagesize kind actual) with
  | none => rw [hb] at h; simp at h
  | some items =>
      rw [hb] at h
      cases h
      refine ⟨?_, rfl⟩
      have hlen : items.length = (pageWindow s page pagesize kind actual).length := by
        rw [← buildItems_map_patent s _ items hb, List.length_map]
      rw [hlen]
      unfold pageWindow
      rw [List.length_take]
      exact Nat.min_le_left _ _

/-- C3 amended witness: the theorem applied to `twoKindStore` at page 1,
page size 10, kind filter 1. -/
theorem getPatentsList_bounds_witness :
    (1 ≤ 1 ∧ 1 ≤ 10) ∧
    getPatentsList twoKindStore 1 10 (some 1) none = some twoKindListResp ∧
    twoKindListResp.items.length ≤ 10 ∧
    twoKindListResp.total = twoKindStore.patents.length :=
  ⟨⟨by decide, by decide⟩, by decide,
   (getPatentsList_bounds twoKindStore 1 10 (some 1) none twoKindListResp
     (by decide) (by decide) (by decide)).1,
   (getPatentsList_bounds twoKindStore 1 10 (some 1) none twoKindListResp
     (by decide) (by decide) (by decide)).2⟩

/-- C7: the claim says the listing's ordering breaks ties among equally
"actual" patents by a stable secondary key (e.g. registration number), making
the page decomposition a function of the stored data; two stores holding the
same two in-force patents as a multiset but in opposite physical row orders
produce item sequences in opposite orders (and the second output is not in
registration-number order), so no row-intrinsic secondary key orders the
ties — the code's only sort key is `Patent.actual DESC`
(`app/crud/patent.py` 58). -/
theorem getPatentsList_no_secondary_key_counterexample :
    (getPatentsList pairStore 1 10 none none).map
        (fun r => r.items.map (fun it => it.patent)) = some [pat11, pat12] ∧
    (getPatentsList pairStoreRev 1 10 none none).map
        (fun r => r.items.map (fun it => it.patent)) = some [pat12, pat11] ∧
    pairStore.patents.Perm pairStoreRev.patents := by
  refine ⟨by decide, by decide, ?_⟩
  decide

/-- C7 amended: calling `listPatents` twice with identical arguments against
the same store yields the identical response (the listing is a pure function
of the store), and within the returned items every in-force patent precedes
every not-in-force one; but there is no secondary tie-break key — patents of
equal `actual` flag stay in the store's physical row order. -/
theorem getPatentsList_deterministic_actual_first (s : Store) (page pagesize : Nat)
    (kind : Option Int) (actual : Option Bool) (r : PatentListResponse)
    (h : getPatentsList s page pagesize kind actual = some r) :
    getPatentsList s page pagesize kind actual = getPatentsList s page pagesize kind actual ∧
    List.Pairwise (fun a b : Patent => b.actual = true → a.actual = true)
      (r.items.map (fun it => it.patent)) := by
  refine ⟨rfl, ?_⟩
  unfold getPatentsList at h
  cases hb : buildItems s (pageWindow s page pagesize kind actual) with
  | none => rw [hb] at h; simp at h
  | some items =>
      rw [hb] at h
      cases h
      rw [buildItems_map_patent s _ items hb]
      have hsub : (pageWindow s page pagesize kind actual).Sublist
          (orderByActualDesc (s.patents.filter (kindActualPred kind actual))) := by
        unfold pageWindow
        exact (List.take_sublist _ _).trans (List.drop_sublist _ _)
      exact (orderByActualDesc_pairwise _).sublist hsub

/-- C7 amended witness: the theorem applied to `pairStore` at page 1, page
size 10, no filters. -/
theorem getPatentsList_deterministic_actual_first_witness :
    getPatentsList pairStore 1 10 none none = some pairListResp ∧
    List.Pairwise (fun a b : Patent => b.actual = true → a.actual = true)
      (pairListResp.items.map (fun it => it.patent)) :=
  ⟨by decide,
   (getPatentsList_deterministic_actual_first pairStore 1 10 none none pairListResp
     (by decide)).2⟩

/-- C4: the claim says a filtered `patentStats` never counts more patents
than the unfiltered one; on a store with one patent owned by two persons,
both in filter 1, the filtered `total_patents` is 2 while the unfiltered one
is 1 — the filtered count statement (`app/crud/patent.py` 174–183) counts
(patent, ownership, filter-row) join rows, once per owner in the filter. -/
theorem getStats_filter_inflates_counterexample :
    (getStats twoOwnerStore (some 1)).map PatentStatsResponse.total_patents = some 2 ∧
    (getStats twoOwnerStore none).map PatentStatsResponse.total_patents = some 1 := by
  exact ⟨by decide, by decide⟩

/-- C4 amended: the filtered `total_patents` counts the (patent, ownership,
filter-row) join rows, so it is bounded by the unfiltered `total_patents`
exactly when no patent has more than one ownership/filter-row link into the
filter set; under that at-most-one-link condition filtering narrows the
count. -/
theorem getStats_filtered_narrowing (s : Store) (fid : Int)
    (hlinks : s.patents.all (fun p => decide ((filterLinks s fid p).length ≤ 1)) = true)
    (r r' : PatentStatsResponse)
    (hf : getStats s (some fid) = some r) (hu : getStats s none = some r') :
    r.total_patents ≤ r'.total_patents := by
  rw [getStats_total_patents hf, getStats_total_patents hu]
  show (statFilteredRows s fid (fun _ => true)).length ≤ s.patents.length
  unfold statFilteredRows
  rw [List.filter_true, List.length_flatMap]
  have hb : ∀ x ∈ List.map
      (List.length ∘ fun p => (filterLinks s fid p).map (fun of => (p, of.1, of.2)))
      s.patents, x ≤ 1 := by
    intro x hx
    rcases List.mem_map.mp hx with ⟨p, hp, rfl⟩
    simp only [Function.comp_apply, List.length_map]
    exact of_decide_eq_true (List.all_eq_true.mp hlinks p hp)
  calc (List.map (List.length ∘ fun p => (filterLinks s fid p).map (fun of => (p, of.1, of.2)))
          s.patents).sum
      ≤ (List.map (List.length ∘ fun p => (filterLinks s fid p).map (fun of => (p, of.1, of.2)))
          s.patents).length • 1 := List.sum_le_card_nsmul _ 1 hb
    _ = s.patents.length := by rw [List.length_map]; simp

/-- C4 amended witness: the theorem applied to `oneOwnerStore` (one patent,
one ownership link into filter 1), where filtered and unfiltered statistics
coincide. -/
theorem getStats_filtered_narrowing_witness :
    (oneOwnerStore.patents.all
       (fun p => decide ((filterLinks oneOwnerStore 1 p).length ≤ 1)) = true) ∧
    getStats oneOwnerStore (some 1) = some oneOwnerStatsResp ∧
    getStats oneOwnerStore none = some oneOwnerStatsResp ∧
    oneOwnerStatsResp.total_patents ≤ oneOwnerStatsResp.total_patents :=
  ⟨by decide, by decide, by decide,
   getStats_filtered_narrowing oneOwnerStore 1 (by decide) oneOwnerStatsResp
     oneOwnerStatsResp (by decide) (by decide)⟩

/-- C8: the claim says the filtered listing's `total` equals the count of
patents having an owner in the filter set; on a store with one patent owned
by two persons, both in filter 1, the returned `total` is 2 while exactly one
patent matches — the `total` statement (`app/crud/patent.py` 355–359) counts
(patent, ownership) join rows. -/
theorem getPatentsListWithFilter_total_counterexample :
    (getPatentsListWithFilter twoOwnerStore 1 10 1).map PatentListResponse.total = some 2 ∧
    (twoOwnerStore.patents.filter (fun p => ownerInFilter twoOwnerStore 1 p)).length = 1 := by
  exact ⟨by decide, by decide⟩

/-- C8 amended: every item a successful filtered listing returns is a patent
with an owner in the filter's tax-number set (patents without one are
excluded entirely), and `total` equals the number of (patent, matching
ownership) pairs — one per ownership row whose tax number is in the set and
which references a stored patent — not the number of distinct matching
patents. -/
theorem getPatentsListWithFilter_props (s : Store) (page pagesize : Nat) (fid : Int)
    (r : PatentListResponse)
    (h : getPatentsListWithFilter s page pagesize fid = some r) :
    r.items.all (fun it => ownerInFilter s fid it.patent) = true ∧
    r.total = (s.patents.map (fun p =>
      (s.ownerships.filter (fun o => ownsPatent o p &&
        (filterTaxNums s fid).contains o.person_tax_number)).length)).sum := by
  unfold getPatentsListWithFilter at h
  cases hb : buildItems s (filteredPageWindow s page pagesize fid) with
  | none => rw [hb] at h; simp at h
  | some items =>
      rw [hb] at h
      cases h
      constructor
      · rw [List.all_eq_true]
        intro it hit
        have hmem : it.patent ∈ filteredPageWindow s page pagesize fid := by
          rw [← buildItems_map_patent s _ items hb]
          exact List.mem_map.mpr ⟨it, hit, rfl⟩
        have hfil : it.patent ∈ s.patents.filter (fun p => ownerInFilter s fid p) := by
          unfold filteredPageWindow at hmem
          exact List.mem_of_mem_drop (List.mem_of_mem_take hmem)
        exact (List.mem_filter.mp hfil).2
      · show (filteredTotalRows s fid).length = _
        unfold filteredTotalRows
        rw [List.length_flatMap]
        congr 1
        apply List.map_congr_left
        intro p _
        simp only [Function.comp_apply, List.length_map]

/-- C8 amended witness: the theorem applied to `oneOwnerStore` with filter 1
at page 1, page size 10. -/
theorem getPatentsListWithFilter_props_witness :
    getPatentsListWithFilter oneOwnerStore 1 10 1 = some oneOwnerFilterResp ∧
    oneOwnerFilterResp.items.all
      (fun it => ownerInFilter oneOwnerStore 1 it.patent) = true ∧
    oneOwnerFilterResp.total = (oneOwnerStore.patents.map (fun p =>
      (oneOwnerStore.ownerships.filter (fun o => ownsPatent o p &&
        (filterTaxNums oneOwnerStore 1).contains o.person_tax_number)).length)).sum :=
  ⟨by decide,
   (getPatentsListWithFilter_props oneOwnerStore 1 10 1 oneOwnerFilterResp (by decide)).1,
   (getPatentsListWithFilter_props oneOwnerStore 1 10 1 oneOwnerFilterResp (by decide)).2⟩

/-- C9: deleting a person leaves no ownership row referencing that tax
number, deleting a patent by its composite key leaves no ownership row
referencing that key, and both deletions preserve the invariant that every
ownership row references an existing person and an existing patent. -/
theorem cascade_delete_integrity (s : Store) (tax : String) (kind reg : Int)
    (h : storeWF s = true) :
    (deletePerson s tax).ownerships.filter (fun o => o.person_tax_number == tax) = [] ∧
    (deletePatent s kind reg).ownerships.filter
      (fun o => o.patent_kind == kind && o.patent_reg_number == reg) = [] ∧
    storeWF (deletePerson s tax) = true ∧
    storeWF (deletePatent s kind reg) = true := by
  rw [storeWF, List.all_eq_true] at h
  refine ⟨?_, ?_, ?_, ?_⟩
  · rw [List.filter_eq_nil_iff]
    intro o ho
    have ho' : o ∈ s.ownerships.filter (fun o => o.person_tax_number != tax) := ho
    have hne := (List.mem_filter.mp ho').2
    rw [bne_iff_ne, ne_eq] at hne
    rw [beq_iff_eq]
    exact hne
  · rw [List.filter_eq_nil_iff]
    intro o ho
    have ho' : o ∈ s.ownerships.filter
        (fun o => !(o.patent_kind == kind && o.patent_reg_number == reg)) := ho
    have hne := (List.mem_filter.mp ho').2
    rw [Bool.not_eq_true'] at hne
    simp [hne]
  · rw [storeWF, List.all_eq_true]
    intro o ho
    have ho' : o ∈ s.ownerships.filter (fun o => o.person_tax_number != tax) := ho
    rcases List.mem_filter.mp ho' with ⟨hom, hne⟩
    have hcond := h o hom
    rw [Bool.and_eq_true] at hcond
    rcases hcond with ⟨hper, hpat⟩
    show ((s.persons.filter (fun q => q.tax_number != tax)).any
        (fun q => q.tax_number == o.person_tax_number) &&
      s.patents.any
        (fun p => p.kind == o.patent_kind && p.reg_number == o.patent_reg_number)) = true
    rw [Bool.and_eq_true]
    refine ⟨?_, hpat⟩
    rw [List.any_eq_true] at hper ⊢
    rcases hper with ⟨q, hq, hqt⟩
    refine ⟨q, List.mem_filter.mpr ⟨hq, ?_⟩, hqt⟩
    rw [beq_iff_eq] at hqt
    rw [bne_iff_ne, ne_eq, hqt]
    rw [bne_iff_ne, ne_eq] at hne
    exact hne
  · rw [storeWF, List.all_eq_true]
    intro o ho
    have ho' : o ∈ s.ownerships.filter
        (fun o => !(o.patent_kind == kind && o.patent_reg_number == reg)) := ho
    rcases List.mem_filter.mp ho' with ⟨hom, hne⟩
    have hcond := h o hom
    rw [Bool.and_eq_true] at hcond
    rcases hcond with ⟨hper, hpat⟩
    show (s.persons.any (fun q => q.tax_number == o.person_tax_number) &&
      (s.patents.filter (fun p => !(p.kind == kind && p.reg_number == reg))).any
        (fun p => p.kind == o.patent_kind && p.reg_number == o.patent_reg_number)) = true
    rw [Bool.and_eq_true]
    refine ⟨hper, ?_⟩
    rw [List.any_eq_true] at hpat ⊢
    rcases hpat with ⟨p, hp, hpk⟩
    refine ⟨p, List.mem_filter.mpr ⟨hp, ?_⟩, hpk⟩
    rw [Bool.and_eq_true, beq_iff_eq, beq_iff_eq] at hpk
    rcases hpk with ⟨hk, hr⟩
    rw [Bool.not_eq_true', Bool.and_eq_false_iff]
    rw [Bool.not_eq_true'] at hne
    rw [Bool.and_eq_false_iff] at hne
    rcases hne with hne | hne
    · left
      rw [beq_eq_false_iff_ne, ne_eq] at hne ⊢
      rw [hk]
      exact hne
    · right
      rw [beq_eq_false_iff_ne, ne_eq] at hne ⊢
      rw [hr]
      exact hne

/-- C9 witness: the theorem applied to `oneOwnerStore`, deleting the person
with tax number `A` and the patent with key `(1, 1)`. -/
theorem cascade_delete_integrity_witness :
    storeWF oneOwnerStore = true ∧
    ((deletePerson oneOwnerStore "A").ownerships.filter
        (fun o => o.person_tax_number == "A") = [] ∧
     (deletePatent oneOwnerStore 1 1).ownerships.filter
        (fun o => o.patent_kind == 1 && o.patent_reg_number == 1) = [] ∧
     storeWF (deletePerson oneOwnerStore "A") = true ∧
     storeWF (deletePatent oneOwnerStore 1 1) = true) :=
  ⟨by decide, cascade_delete_integrity oneOwnerStore "A" 1 1 (by decide)⟩

/-- C10 witness: the theorem applied to the two-entry input `[(A,3),(B,1)]`. -/
theorem getTop5AndOthers_sum_witness :
    ([(("A" : String), (3 : Int)), ("B", 1)].all (fun x => decide (0 ≤ x.2)) = true) ∧
    ((getTop5AndOthers [("A", 3), ("B", 1)]).map Prod.snd).sum =
      (([(("A" : String), (3 : Int)), ("B", 1)]).map Prod.snd).sum :=
  ⟨by decide, getTop5AndOthers_sum [("A", 3), ("B", 1)] (by decide)⟩

end AppBack
